import Mathlib

/-!
Shallow embedding of the ledger-event reconciliation pipeline of the
freelancing platform backend (`BlockchainService.ts`), the `JobFactory`
and `YieldEscrow` contracts, and the backend `ArbitratorManager`
selection, together with theorems settling the specification claims.
-/

namespace Spec2Proof

/-! ## Event ingestion queue

Embeds `BlockchainService.addToProcessingQueue` and the drain loop inside
`BlockchainService.startEventProcessing`.  An event payload is identified
by `id`; `retryCount` mirrors the mutable `eventData.retryCount` field
(absent = 0 in the source; we carry it explicitly). -/

structure QEvent where
  id : Nat
  retryCount : Nat
deriving DecidableEq, Repr

/-- `addToProcessingQueue`: pushes the event at the tail of the per-type
buffer (`this.eventProcessingQueue.get(eventType)!.push(eventData)`). -/
def addToProcessingQueue (q : List QEvent) (e : QEvent) : List QEvent :=
  q ++ [e]

/-- What one iteration of the drain loop does to a single batched event,
as far as re-enqueueing goes: on failure with `retryCount < 3` the event
is re-enqueued with `retryCount` incremented; on failure with
`retryCount ≥ 3` it is not re-enqueued (the source has no other branch);
on success nothing is re-enqueued. -/
def retryOutcome (fails : QEvent → Bool) (e : QEvent) : Option QEvent :=
  if fails e then
    if e.retryCount < 3 then some { e with retryCount := e.retryCount + 1 }
    else none
  else none

/-- Result of one 5-second tick of `startEventProcessing` for one event
type.  `queue` is the only state the source keeps; `processed` and
`dropped` are bookkeeping recording which batched events succeeded and
which failed with an exhausted retry budget (the source forgets the
latter: no dead-letter structure exists). -/
structure TickResult where
  queue : List QEvent
  processed : List QEvent
  dropped : List QEvent
deriving DecidableEq, Repr

/-- The `for (const eventData of eventsToProcess)` loop: each failing
event with remaining budget is appended to the tail of the queue via
`addToProcessingQueue`; a failing event with `retryCount ≥ 3` is
dropped; a succeeding event is recorded as processed. -/
def handleBatch (fails : QEvent → Bool) : List QEvent → TickResult → TickResult
  | [], r => r
  | e :: rest, r =>
    if fails e then
      if e.retryCount < 3 then
        handleBatch fails rest
          { r with queue := addToProcessingQueue r.queue { e with retryCount := e.retryCount + 1 } }
      else
        handleBatch fails rest { r with dropped := r.dropped ++ [e] }
    else
      handleBatch fails rest { r with processed := r.processed ++ [e] }

/-- One tick of `startEventProcessing` for one event type:
`events.splice(0, 10)` removes the 10 oldest entries and the loop
processes them in order, re-enqueueing failures at the tail. -/
def processTick (fails : QEvent → Bool) (q : List QEvent) : TickResult :=
  handleBatch fails (q.take 10) { queue := q.drop 10, processed := [], dropped := [] }

/-- Iterated ticks, keeping only the queue (the source's only state). -/
def runTicks (fails : QEvent → Bool) : Nat → List QEvent → List QEvent
  | 0, q => q
  | n + 1, q => runTicks fails n (processTick fails q).queue

/-- Number of processing attempts made on events with identifier `i`
over `n` ticks: each tick attempts exactly the batch `q.take 10`. -/
def attemptsOf (fails : QEvent → Bool) (i : Nat) : Nat → List QEvent → Nat
  | 0, _ => 0
  | n + 1, q =>
    ((q.take 10).filter (fun e => e.id = i)).length
      + attemptsOf fails i n (processTick fails q).queue

/-! ## Durable store

Modelled from the spec: the `DatabaseService` implementation is not part
of the sources (only its call sites are); §6 of the specification fixes
its layout as "one durable record per entity type keyed by its
ledger-assigned id", so every save is a keyed overwrite into an
association list. -/

/-- Keyed overwrite: the record for key `k` becomes `v`, all other keys
keep their record. -/
def setKey [DecidableEq κ] (m : List (κ × α)) (k : κ) (v : α) : List (κ × α) :=
  (k, v) :: m.filter (fun p => p.1 ≠ k)

/-- Keyed read. -/
def getKey [DecidableEq κ] (m : List (κ × α)) (k : κ) : Option α :=
  (m.find? (fun p => p.1 = k)).map (fun p => p.2)

/-- Job metadata fetched from IPFS by `ipfsService.fetchJobData`. -/
structure JobDetails where
  title : String
  description : String
  requirements : List String
  skills : List String
  milestones : List String
deriving DecidableEq, Repr

/-- Bid metadata fetched from IPFS by `ipfsService.fetchBidData`. -/
structure BidDetails where
  proposal : String
  coverLetter : String
deriving DecidableEq, Repr

/-- Token symbol/decimals as returned by `getTokenInfo`. -/
structure TokenInfo where
  symbol : String
  decimals : Nat
deriving DecidableEq, Repr

/-- `JobCreatedEvent` payload (types/blockchain.ts, as built in
`handleJobCreated`).  Timestamps are in seconds, amounts are decimal
strings as in the source. -/
structure JobCreatedEvent where
  jobId : String
  client : String
  jobContract : String
  ipfsHash : String
  totalBudget : String
  paymentToken : String
  blockNumber : Nat
  transactionHash : String
  timestamp : Nat
deriving DecidableEq, Repr

/-- `BidSubmittedEvent` payload as built in `handleBidSubmitted`. -/
structure BidSubmittedEvent where
  jobId : String
  freelancer : String
  proposedBudget : String
  proposedTimeline : String
  proposalHash : String
  blockNumber : Nat
  transactionHash : String
  timestamp : Nat
deriving DecidableEq, Repr

/-- `MilestoneCompletedEvent` payload as built in
`handleMilestoneCompleted`. -/
structure MilestoneCompletedEvent where
  escrowId : String
  milestoneIndex : Nat
  amount : String
  recipient : String
  blockNumber : Nat
  transactionHash : String
  timestamp : Nat
deriving DecidableEq, Repr

/-- `DisputeRaisedEvent` payload as built in `handleDisputeRaised`. -/
structure DisputeRaisedEvent where
  disputeId : String
  escrowId : String
  initiator : String
  blockNumber : Nat
  transactionHash : String
  timestamp : Nat
deriving DecidableEq, Repr

/-- The record written by `databaseService.saveJob` in
`processJobCreatedEvent`.  `createdAt` and `biddingDeadline` are
`Date` values kept as milliseconds since the epoch. -/
structure JobRecord where
  jobId : String
  contractAddress : String
  clientAddress : String
  title : String
  description : String
  requirements : List String
  budget : String
  budgetUSD : String
  paymentToken : String
  currency : String
  skills : List String
  milestones : List String
  ipfsHash : String
  status : String
  createdAt : Nat
  biddingDeadline : Nat
  blockNumber : Nat
  transactionHash : String
deriving DecidableEq, Repr

/-- The record written by `databaseService.saveBid` in
`processBidSubmittedEvent`. -/
structure BidRecord where
  jobId : String
  freelancerAddress : String
  proposedBudget : String
  proposedBudgetUSD : String
  proposedTimeline : Nat
  proposal : String
  proposalHash : String
  coverLetter : String
  status : String
  submittedAt : Nat
  blockNumber : Nat
  transactionHash : String
deriving DecidableEq, Repr

/-- The per-milestone record written by
`databaseService.updateMilestoneStatus`. -/
structure MilestoneRecord where
  status : String
  completedAt : Nat
  amount : String
  recipient : String
  transactionHash : String
deriving DecidableEq, Repr

/-- The record written by `databaseService.saveDispute` in
`processDisputeRaisedEvent`. -/
structure DisputeRecord where
  disputeId : String
  escrowId : String
  jobId : String
  initiator : String
  respondent : String
  status : String
  createdAt : Nat
  blockNumber : Nat
  transactionHash : String
deriving DecidableEq, Repr

/-- The escrow record read by `databaseService.getEscrowById` (the
fields the reconciler dereferences: `jobContract`, `client`,
`freelancer`). -/
structure EscrowRecord where
  jobContract : String
  client : String
  freelancer : String
deriving DecidableEq, Repr

/-- Modelled from the spec: the durable store held by
`DatabaseService`, one association list per entity type, each keyed by
the ledger-assigned id (§6).  Bids are keyed by (jobId, freelancer),
milestones by (escrowId, milestoneIndex).  `userLocationHash` backs
`getUserLocationHash`. -/
structure DB where
  jobs : List (String × JobRecord)
  bids : List ((String × String) × BidRecord)
  milestones : List ((String × Nat) × MilestoneRecord)
  disputes : List (String × DisputeRecord)
  escrows : List (String × EscrowRecord)
  userLocationHash : List (String × String)
deriving DecidableEq, Repr

def saveJob (db : DB) (r : JobRecord) : DB :=
  { db with jobs := setKey db.jobs r.jobId r }

def saveBid (db : DB) (r : BidRecord) : DB :=
  { db with bids := setKey db.bids (r.jobId, r.freelancerAddress) r }

def saveDispute (db : DB) (r : DisputeRecord) : DB :=
  { db with disputes := setKey db.disputes r.disputeId r }

def updateMilestoneStatus (db : DB) (escrowId : String) (idx : Nat) (r : MilestoneRecord) : DB :=
  { db with milestones := setKey db.milestones (escrowId, idx) r }

def updateJobStatus (db : DB) (jobId status : String) : DB :=
  { db with jobs :=
      db.jobs.map (fun p => if p.1 = jobId then (p.1, { p.2 with status := status }) else p) }

def getJobById (db : DB) (jobId : String) : Option JobRecord :=
  getKey db.jobs jobId

def getJobByContractAddress (db : DB) (addr : String) : Option JobRecord :=
  ((db.jobs.find? (fun p => p.2.contractAddress = addr)).map (fun p => p.2))

def getEscrowById (db : DB) (escrowId : String) : Option EscrowRecord :=
  getKey db.escrows escrowId

def getMilestonesByEscrowId (db : DB) (escrowId : String) : List MilestoneRecord :=
  (db.milestones.filter (fun p => p.1.1 = escrowId)).map (fun p => p.2)

/-- `checkAllMilestonesCompleted`: `milestones.every(m => m.status === 'COMPLETED')`. -/
def checkAllMilestonesCompleted (db : DB) (escrowId : String) : Bool :=
  (getMilestonesByEscrowId db escrowId).all (fun m => m.status = "COMPLETED")

def getUserLocationHash (db : DB) (user : String) : String :=
  (getKey db.userLocationHash user).getD ""

/-! ## External collaborators and side effects -/

/-- Side effects the reconciler fires besides durable-store writes
(cache writes, notifications, realtime emissions, ledger transaction
submissions), recorded in emission order. -/
inductive Effect where
  | cacheSetJob (jobId : String)
  | notifyJobCreated (jobId : String)
  | notifyNewBid (client : String)
  | incrementJobBidCount (jobId : String)
  | notifyMilestoneCompleted (client freelancer : String)
  | notifyJobCompleted (jobId : String)
  | submitSelectArbitrator (disputeId clientLocationHash freelancerLocationHash : String)
  | notifyDisputeRaised (client freelancer : String)
  | realTimeUpdate (tag : String)
deriving DecidableEq, Repr

/-- Deterministic environment standing for the external collaborators:
IPFS fetches and token-contract reads may fail (`none`), each
notification / cache / transaction-submission call either succeeds or
throws (`false`).  The read-through caches inside `getTokenInfo` and
`getBlockTimestamp` are collapsed into the deterministic oracle. -/
structure Env where
  fetchJobData : String → Option JobDetails
  fetchBidData : String → Option BidDetails
  tokenContractInfo : String → Option TokenInfo
  hasSigner : Bool
  setJobCacheOk : Bool
  notifyJobCreatedOk : Bool
  notifyNewBidOk : Bool
  incrementJobBidCountOk : Bool
  notifyMilestoneCompletedOk : Bool
  notifyJobCompletedOk : Bool
  submitSelectionOk : Bool
  notifyDisputeRaisedOk : Bool

/-- `ethers.constants.AddressZero`. -/
def addressZero : String := "0x0000000000000000000000000000000000000000"

/-- `getTokenInfo`: the zero address is hard-coded to ETH/18, other
tokens are read from the token contract. -/
def getTokenInfo (env : Env) (tokenAddress : String) : Option TokenInfo :=
  if tokenAddress = addressZero then some { symbol := "ETH", decimals := 18 }
  else env.tokenContractInfo tokenAddress

/-- `convertToUSD` is a placeholder in the source: it always returns
the string `'0'`. -/
def convertToUSD (_tokenAddress _amount : String) : String := "0"

/-- `parseInt` on the decimal timeline string (0 when unparsable). -/
def parseIntD (s : String) : Nat := (s.toNat?).getD 0

/-- Outcome of processing one event: the store as mutated so far, the
side effects emitted so far, and whether the handler ran to completion
(`success = false` models the thrown error that `startEventProcessing`
catches). -/
structure POut where
  db : DB
  effects : List Effect
  success : Bool
deriving DecidableEq, Repr

/-- 7 days in milliseconds: `7 * 24 * 60 * 60 * 1000`. -/
def sevenDaysMs : Nat := 7 * 24 * 60 * 60 * 1000

/-- `processJobCreatedEvent`: fetch metadata, read token info, convert
budget, save the job, cache it, notify, emit.  Any throwing step aborts
the handler with the store as written so far. -/
def processJobCreatedEvent (env : Env) (db : DB) (ev : JobCreatedEvent) : POut :=
  match env.fetchJobData ev.ipfsHash with
  | none => { db := db, effects := [], success := false }
  | some jobDetails =>
    match getTokenInfo env ev.paymentToken with
    | none => { db := db, effects := [], success := false }
    | some tokenInfo =>
      let budgetUSD := convertToUSD ev.paymentToken ev.totalBudget
      let db1 := saveJob db
        { jobId := ev.jobId
          contractAddress := ev.jobContract
          clientAddress := ev.client
          title := jobDetails.title
          description := jobDetails.description
          requirements := jobDetails.requirements
          budget := ev.totalBudget
          budgetUSD := budgetUSD
          paymentToken := ev.paymentToken
          currency := tokenInfo.symbol
          skills := jobDetails.skills
          milestones := jobDetails.milestones
          ipfsHash := ev.ipfsHash
          status := "OPEN"
          createdAt := ev.timestamp * 1000
          biddingDeadline := ev.timestamp * 1000 + sevenDaysMs
          blockNumber := ev.blockNumber
          transactionHash := ev.transactionHash }
      if !env.setJobCacheOk then { db := db1, effects := [], success := false }
      else if !env.notifyJobCreatedOk then
        { db := db1, effects := [.cacheSetJob ev.jobId], success := false }
      else
        { db := db1
          effects := [.cacheSetJob ev.jobId, .notifyJobCreated ev.jobId,
                      .realTimeUpdate "jobCreated"]
          success := true }

/-- `processBidSubmittedEvent`: fetch the proposal, require the parent
job, save the bid, notify the client, bump the cached bid count, emit. -/
def processBidSubmittedEvent (env : Env) (db : DB) (ev : BidSubmittedEvent) : POut :=
  match env.fetchBidData ev.proposalHash with
  | none => { db := db, effects := [], success := false }
  | some bidDetails =>
    match getJobById db ev.jobId with
    | none => { db := db, effects := [], success := false }
    | some job =>
      let budgetUSD := convertToUSD job.paymentToken ev.proposedBudget
      let db1 := saveBid db
        { jobId := ev.jobId
          freelancerAddress := ev.freelancer
          proposedBudget := ev.proposedBudget
          proposedBudgetUSD := budgetUSD
          proposedTimeline := parseIntD ev.proposedTimeline
          proposal := bidDetails.proposal
          proposalHash := ev.proposalHash
          coverLetter := bidDetails.coverLetter
          status := "ACTIVE"
          submittedAt := ev.timestamp * 1000
          blockNumber := ev.blockNumber
          transactionHash := ev.transactionHash }
      if !env.notifyNewBidOk then
        { db := db1, effects := [], success := false }
      else if !env.incrementJobBidCountOk then
        { db := db1, effects := [.notifyNewBid job.clientAddress], success := false }
      else
        { db := db1
          effects := [.notifyNewBid job.clientAddress, .incrementJobBidCount ev.jobId,
                      .realTimeUpdate "bidSubmitted"]
          success := true }

/-- `processMilestoneCompletedEvent`: write the milestone record first,
then read escrow and job, notify, and if every milestone of the escrow
is COMPLETED also set the job status to COMPLETED and notify. -/
def processMilestoneCompletedEvent (env : Env) (db : DB) (ev : MilestoneCompletedEvent) : POut :=
  let db1 := updateMilestoneStatus db ev.escrowId ev.milestoneIndex
    { status := "COMPLETED"
      completedAt := ev.timestamp * 1000
      amount := ev.amount
      recipient := ev.recipient
      transactionHash := ev.transactionHash }
  match getEscrowById db1 ev.escrowId with
  | none => { db := db1, effects := [], success := false }
  | some escrow =>
    match getJobByContractAddress db1 escrow.jobContract with
    | none => { db := db1, effects := [], success := false }
    | some job =>
      if !env.notifyMilestoneCompletedOk then
        { db := db1, effects := [], success := false }
      else
        let eff1 := [Effect.notifyMilestoneCompleted escrow.client escrow.freelancer]
        if checkAllMilestonesCompleted db1 ev.escrowId then
          let db2 := updateJobStatus db1 job.jobId "COMPLETED"
          if !env.notifyJobCompletedOk then
            { db := db2, effects := eff1, success := false }
          else
            { db := db2
              effects := eff1 ++ [.notifyJobCompleted job.jobId,
                                  .realTimeUpdate "milestoneCompleted"]
              success := true }
        else
          { db := db1
            effects := eff1 ++ [.realTimeUpdate "milestoneCompleted"]
            success := true }

/-- `requestArbitratorSelection`: requires a signer, reads both
parties' location hashes and submits `selectArbitratorForDispute` to
the ledger; a failed submission throws. -/
def requestArbitratorSelection (env : Env) (db : DB) (disputeId : String)
    (escrow : EscrowRecord) : Option Effect :=
  if !env.hasSigner then none
  else if !env.submitSelectionOk then none
  else some (.submitSelectArbitrator disputeId
    (getUserLocationHash db escrow.client) (getUserLocationHash db escrow.freelancer))

/-- `processDisputeRaisedEvent`: read escrow and job, save the dispute
(with the respondent derived as the escrow counterparty of the
initiator), mark the job DISPUTED, submit arbitrator selection, notify,
emit. -/
def processDisputeRaisedEvent (env : Env) (db : DB) (ev : DisputeRaisedEvent) : POut :=
  match getEscrowById db ev.escrowId with
  | none => { db := db, effects := [], success := false }
  | some escrow =>
    match getJobByContractAddress db escrow.jobContract with
    | none => { db := db, effects := [], success := false }
    | some job =>
      let db1 := saveDispute db
        { disputeId := ev.disputeId
          escrowId := ev.escrowId
          jobId := job.jobId
          initiator := ev.initiator
          respondent := if ev.initiator = escrow.client then escrow.freelancer else escrow.client
          status := "PENDING"
          createdAt := ev.timestamp * 1000
          blockNumber := ev.blockNumber
          transactionHash := ev.transactionHash }
      let db2 := updateJobStatus db1 job.jobId "DISPUTED"
      match requestArbitratorSelection env db2 ev.disputeId escrow with
      | none => { db := db2, effects := [], success := false }
      | some submitEff =>
        if !env.notifyDisputeRaisedOk then
          { db := db2, effects := [submitEff], success := false }
        else
          { db := db2
            effects := [submitEff, .notifyDisputeRaised escrow.client escrow.freelancer,
                        .realTimeUpdate "disputeRaised"]
            success := true }

/-- The payload union dispatched by `processEvent`'s switch. -/
inductive EventData where
  | jobCreated (e : JobCreatedEvent)
  | bidSubmitted (e : BidSubmittedEvent)
  | milestoneCompleted (e : MilestoneCompletedEvent)
  | disputeRaised (e : DisputeRaisedEvent)
deriving DecidableEq, Repr

/-- `processEvent`. -/
def processEvent (env : Env) (db : DB) : EventData → POut
  | .jobCreated e => processJobCreatedEvent env db e
  | .bidSubmitted e => processBidSubmittedEvent env db e
  | .milestoneCompleted e => processMilestoneCompletedEvent env db e
  | .disputeRaised e => processDisputeRaisedEvent env db e

/-! ## JobFactory contract (`contracts/core/JobFactory.sol`)

uint256 values are `Nat` with explicit checks at `2 ^ 256` where the
Solidity 0.8 checked arithmetic would revert. -/

def UINT256_MOD : Nat := 2 ^ 256

def MAX_JOBS_PER_CLIENT : Nat := 50
/-- `0.01 ether`. -/
def JOB_CREATION_FEE : Nat := 10 ^ 16
def MAX_MILESTONES : Nat := 10
/-- `0.01 ether`. -/
def MIN_JOB_BUDGET : Nat := 10 ^ 16
/-- `10000 ether`. -/
def MAX_JOB_BUDGET : Nat := 10 ^ 22

/-- The revert reasons of `JobFactory` reachable from `createJob`
(`overflowPanic` stands for the Solidity 0.8 checked-arithmetic panic
on `milestoneSum += milestoneAmounts[i]`). -/
inductive JFError where
  | unauthorizedClient
  | pausedErr
  | invalidBudget (provided min max : Nat)
  | invalidMilestones (count max : Nat)
  | milestoneMismatch (totalBudget milestoneSum : Nat)
  | tooManyJobs (current max : Nat)
  | insufficientFee (provided required : Nat)
  | invalidIPFSHash
  | deadlineInPast (deadline current : Nat)
  | overflowPanic
deriving DecidableEq, Repr

/-- The factory storage that `createJob` reads and writes. -/
structure FactoryState where
  jobCounter : Nat
  jobs : List (Nat × String)
  clientJobCount : List (String × Nat)
  authorizedClients : List String
  ownerAddr : String
  paused : Bool
deriving DecidableEq, Repr

/-- The arguments `createJob` forwards to `IJobContract` on the fresh
clone: the created job's on-ledger data. -/
structure CreatedJob where
  jobId : Nat
  client : String
  ipfsHash : String
  totalBudget : Nat
  paymentToken : String
  milestoneAmounts : List Nat
  milestoneDeadlines : List Nat
deriving DecidableEq, Repr

/-- The `for` loop body of `_validateJobCreation`: accumulate
`milestoneSum` (checked addition) and revert `DeadlineInPast` for a
deadline at or before `block.timestamp`. -/
def milestoneLoop (timestamp : Nat) : List (Nat × Nat) → Nat → Except JFError Nat
  | [], acc => .ok acc
  | (a, d) :: rest, acc =>
    if acc + a ≥ UINT256_MOD then .error .overflowPanic
    else if d ≤ timestamp then .error (.deadlineInPast d timestamp)
    else milestoneLoop timestamp rest (acc + a)

/-- `_validateJobCreation` (ipfsHash is abstracted to its byte
length).  Reverts propagate as `.error`. -/
def validateJobCreation (timestamp : Nat) (ipfsHashLen totalBudget : Nat)
    (milestoneAmounts milestoneDeadlines : List Nat) : Except JFError Unit :=
  if ipfsHashLen = 0 then .error .invalidIPFSHash
  else if totalBudget < MIN_JOB_BUDGET ∨ totalBudget > MAX_JOB_BUDGET then
    .error (.invalidBudget totalBudget MIN_JOB_BUDGET MAX_JOB_BUDGET)
  else if milestoneAmounts.length = 0 ∨ milestoneAmounts.length > MAX_MILESTONES then
    .error (.invalidMilestones milestoneAmounts.length MAX_MILESTONES)
  else if milestoneAmounts.length ≠ milestoneDeadlines.length then
    .error (.invalidMilestones milestoneAmounts.length milestoneDeadlines.length)
  else
    match milestoneLoop timestamp (milestoneAmounts.zip milestoneDeadlines) 0 with
    | .error e => .error e
    | .ok milestoneSum =>
      if milestoneSum ≠ totalBudget then
        .error (.milestoneMismatch totalBudget milestoneSum)
      else .ok ()

/-- `createJob`.  The minimal-proxy clone address is abstracted to a
name derived from the job id (the contract only stores and emits it). -/
def createJob (st : FactoryState) (sender : String) (msgValue timestamp : Nat)
    (ipfsHashLen totalBudget : Nat) (paymentToken ipfsHash : String)
    (milestoneAmounts milestoneDeadlines : List Nat) :
    Except JFError (FactoryState × CreatedJob) :=
  if ¬ (sender ∈ st.authorizedClients ∨ sender = st.ownerAddr) then
    .error .unauthorizedClient
  else if st.paused then .error .pausedErr
  else
    match validateJobCreation timestamp ipfsHashLen totalBudget
        milestoneAmounts milestoneDeadlines with
    | .error e => .error e
    | .ok _ =>
      if msgValue < JOB_CREATION_FEE then
        .error (.insufficientFee msgValue JOB_CREATION_FEE)
      else
        let senderCount := (getKey st.clientJobCount sender).getD 0
        if senderCount ≥ MAX_JOBS_PER_CLIENT then
          .error (.tooManyJobs senderCount MAX_JOBS_PER_CLIENT)
        else
          let jobId := st.jobCounter + 1
          let jobContract := "clone-" ++ toString jobId
          let created : CreatedJob :=
            { jobId := jobId
              client := sender
              ipfsHash := ipfsHash
              totalBudget := totalBudget
              paymentToken := paymentToken
              milestoneAmounts := milestoneAmounts
              milestoneDeadlines := milestoneDeadlines }
          let st2 : FactoryState :=
            { st with
              jobCounter := jobId
              jobs := setKey st.jobs jobId jobContract
              clientJobCount := setKey st.clientJobCount sender (senderCount + 1) }
          .ok (st2, created)

/-! ## YieldEscrow contract (`YieldEscrow.releaseWithYield`) -/

/-- One escrow entry of the `YieldEscrow` contract. -/
structure YEscrow where
  client : String
  freelancer : String
  amount : Nat
  shares : Nat
deriving DecidableEq, Repr

/-- `releaseWithYield`: redeem the vault shares, compute the accrued
yield (`uint256` subtraction, reverting on underflow), pay the
freelancer the principal plus 80% of the yield and refund the client
20% of the yield.  `redeem` is the vault's `redeem` function; the
result pair is (freelancerAmount, clientRefund). -/
def releaseWithYield (redeem : Nat → Nat) (sender : String) (e : YEscrow) :
    Except String (Nat × Nat) :=
  if sender ≠ e.client then .error "Unauthorized"
  else
    let totalAmount := redeem e.shares
    if totalAmount < e.amount then .error "arithmetic underflow"
    else
      let yieldEarned := totalAmount - e.amount
      .ok (e.amount + yieldEarned * 80 / 100, yieldEarned * 20 / 100)

/-! ## Backend arbitrator selection (`ArbitratorManager`) -/

/-- An arbitrator row as read by `ArbitratorManager.selectArbitrators`. -/
structure Arbitrator where
  walletAddress : String
  region : String
  isActive : Bool
  currentDisputes : Nat
deriving DecidableEq, Repr

/-- The simultaneous swap
`[result[i], result[j]] = [result[j], result[i]]`. -/
def swapPositions (l : List α) (i j : Nat) : List α :=
  match l.get? i, l.get? j with
  | some a, some b => (l.set i b).set j a
  | _, _ => l

/-- The `while (currentIndex !== 0)` loop of
`ArbitratorManager.shuffleArray`: draw `seed % currentIndex`, decrement
`currentIndex`, swap, halve the seed (`seed >> 1n`). -/
def shuffleGo (seed : Nat) : Nat → List α → List α
  | 0, l => l
  | n + 1, l => shuffleGo (seed / 2) n (swapPositions l n (seed % (n + 1)))

/-- `shuffleArray(array, seed)`. -/
def shuffleArray (l : List α) (seed : Nat) : List α :=
  shuffleGo seed l.length l

/-- `ArbitratorManager.selectArbitrators(disputeId, excludeRegion)`:
filter to active arbitrators outside the single excluded region with
fewer than 3 current disputes, shuffle with the VRF seed, take 3,
return the wallet addresses. -/
def selectArbitrators (pool : List Arbitrator) (excludeRegion : String) (seed : Nat) :
    List String :=
  let available := pool.filter
    (fun a => a.isActive && a.region ≠ excludeRegion && a.currentDisputes < 3)
  ((shuffleArray available seed).take 3).map (fun a => a.walletAddress)

/-! ## Concrete fixtures

A small concrete store, environment and events, used by the witness and
counterexample theorems. -/

def jdSample : JobDetails :=
  { title := "T", description := "D", requirements := [], skills := [], milestones := [] }

def bdSample : BidDetails := { proposal := "P", coverLetter := "C" }

def escrowSample : EscrowRecord := { jobContract := "c1", client := "cl", freelancer := "fr" }

def jobSample : JobRecord :=
  { jobId := "j1", contractAddress := "c1", clientAddress := "cl", title := "T"
    description := "D", requirements := [], budget := "100", budgetUSD := "0"
    paymentToken := addressZero, currency := "ETH", skills := [], milestones := []
    ipfsHash := "Qm", status := "IN_PROGRESS", createdAt := 0, biddingDeadline := 0
    blockNumber := 1, transactionHash := "tx0" }

def dbSample : DB :=
  { jobs := [("j1", jobSample)], bids := [], milestones := [], disputes := []
    escrows := [("esc1", escrowSample)], userLocationHash := [] }

/-- Environment where every external collaborator succeeds. -/
def envAllOk : Env :=
  { fetchJobData := fun _ => some jdSample
    fetchBidData := fun _ => some bdSample
    tokenContractInfo := fun _ => some { symbol := "DAI", decimals := 18 }
    hasSigner := true
    setJobCacheOk := true
    notifyJobCreatedOk := true
    notifyNewBidOk := true
    incrementJobBidCountOk := true
    notifyMilestoneCompletedOk := true
    notifyJobCompletedOk := true
    submitSelectionOk := true
    notifyDisputeRaisedOk := true }

def evJobSample : JobCreatedEvent :=
  { jobId := "j2", client := "cl2", jobContract := "c2", ipfsHash := "Qm2"
    totalBudget := "1000", paymentToken := addressZero, blockNumber := 4
    transactionHash := "tx3", timestamp := 2000 }

def evBidSample : BidSubmittedEvent :=
  { jobId := "j1", freelancer := "fr2", proposedBudget := "90", proposedTimeline := "30"
    proposalHash := "Qm3", blockNumber := 5, transactionHash := "tx4", timestamp := 2100 }

def evMilestoneSample : MilestoneCompletedEvent :=
  { escrowId := "esc1", milestoneIndex := 0, amount := "600", recipient := "fr"
    blockNumber := 2, transactionHash := "tx1", timestamp := 1000 }

def evDisputeSample : DisputeRaisedEvent :=
  { disputeId := "d1", escrowId := "esc1", initiator := "cl", blockNumber := 3
    transactionHash := "tx2", timestamp := 1001 }

/-- `envAllOk` except that `notifyMilestoneCompleted` throws. -/
def envNotifyMilestoneFail : Env := { envAllOk with notifyMilestoneCompletedOk := false }

/-- `envAllOk` except that the `selectArbitratorForDispute` transaction
submission fails. -/
def envSubmitFail : Env := { envAllOk with submitSelectionOk := false }

def factorySample : FactoryState :=
  { jobCounter := 0, jobs := [], clientJobCount := [], authorizedClients := ["alice"]
    ownerAddr := "own", paused := false }

def factoryAfterSample : FactoryState :=
  { jobCounter := 1, jobs := [(1, "clone-1")], clientJobCount := [("alice", 1)]
    authorizedClients := ["alice"], ownerAddr := "own", paused := false }

def createdJobSample : CreatedJob :=
  { jobId := 1, client := "alice", ipfsHash := "Qm", totalBudget := 10 ^ 16
    paymentToken := "tok", milestoneAmounts := [10 ^ 16], milestoneDeadlines := [101] }

def yEscrowSample : YEscrow :=
  { client := "cl", freelancer := "fr", amount := 1000, shares := 10 }

def arbPoolSample : List Arbitrator :=
  [{ walletAddress := "a1", region := "AS", isActive := true, currentDisputes := 0 }]

/-! ## Queue lemmas -/

lemma handleBatch_queue (fails : QEvent → Bool) (batch : List QEvent) (r : TickResult) :
    (handleBatch fails batch r).queue = r.queue ++ batch.filterMap (retryOutcome fails) := by
  induction batch generalizing r with
  | nil => simp [handleBatch]
  | cons e rest ih =>
    by_cases hf : fails e
    · by_cases hr : e.retryCount < 3
      · simp [handleBatch, hf, hr, ih, retryOutcome, addToProcessingQueue]
      · simp [handleBatch, hf, hr, ih, retryOutcome]
    · simp [handleBatch, hf, ih, retryOutcome]

lemma handleBatch_processed (fails : QEvent → Bool) (batch : List QEvent) (r : TickResult) :
    (handleBatch fails batch r).processed = r.processed ++ batch.filter (fun e => !fails e) := by
  induction batch generalizing r with
  | nil => simp [handleBatch]
  | cons e rest ih =>
    by_cases hf : fails e
    · by_cases hr : e.retryCount < 3
      · simp [handleBatch, hf, hr, ih]
      · simp [handleBatch, hf, hr, ih]
    · simp [handleBatch, hf, ih]

lemma handleBatch_dropped (fails : QEvent → Bool) (batch : List QEvent) (r : TickResult) :
    (handleBatch fails batch r).dropped =
      r.dropped ++ batch.filter (fun e => fails e && !(e.retryCount < 3)) := by
  induction batch generalizing r with
  | nil => simp [handleBatch]
  | cons e rest ih =>
    by_cases hf : fails e
    · by_cases hr : e.retryCount < 3
      · simp [handleBatch, hf, hr, ih]
      · simp [handleBatch, hf, hr, ih]
    · simp [handleBatch, hf, ih]

lemma processTick_queue (fails : QEvent → Bool) (q : List QEvent) :
    (processTick fails q).queue = q.drop 10 ++ (q.take 10).filterMap (retryOutcome fails) := by
  simp [processTick, handleBatch_queue]

lemma processTick_nil (fails : QEvent → Bool) :
    (processTick fails []).queue = [] := by
  simp [processTick, handleBatch]

lemma runTicks_nil (fails : QEvent → Bool) (n : Nat) :
    runTicks fails n [] = [] := by
  induction n with
  | zero => rfl
  | succ n ih => simpa [runTicks, processTick_nil] using ih

lemma attemptsOf_nil (fails : QEvent → Bool) (i n : Nat) :
    attemptsOf fails i n [] = 0 := by
  induction n with
  | zero => rfl
  | succ n ih => simpa [attemptsOf, processTick_nil] using ih

lemma processTick_singleton_fail_lt (fails : QEvent → Bool) (e : QEvent)
    (hf : fails e = true) (hr : e.retryCount < 3) :
    (processTick fails [e]).queue = [{ e with retryCount := e.retryCount + 1 }] := by
  simp [processTick_queue, retryOutcome, hf, hr]

lemma processTick_singleton_fail_exhausted (fails : QEvent → Bool) (e : QEvent)
    (hf : fails e = true) (hr : ¬ e.retryCount < 3) :
    (processTick fails [e]).queue = [] ∧ (processTick fails [e]).dropped = [e] := by
  constructor
  · simp [processTick_queue, retryOutcome, hf, hr]
  · simp [processTick, handleBatch_dropped, hf, hr]

lemma attemptsOf_singleton_succ (fails : QEvent → Bool) (e : QEvent) (n : Nat)
    (hi : e.id = i) :
    attemptsOf fails i (n + 1) [e] = 1 + attemptsOf fails i n (processTick fails [e]).queue := by
  simp [attemptsOf, hi]

/-! ## Claim theorems: ingestion queue -/

/-- C1 counterexample.  An event whose processing always fails is
attempted 4 times (enqueue plus 3 retries) and then vanishes from the
system state entirely: the queue — the only state
`startEventProcessing` keeps — is empty from the 4th tick on, no
further attempt is ever made, and nothing resembling a dead-letter
record survives; the drop branch of the drain loop simply forgets the
event.  This contradicts the claim that after the 3rd failed attempt
the event is moved to a dead-letter list and reported rather than
silently dropped. -/
theorem c1_counterexample :
    runTicks (fun _ => true) 4 [⟨0, 0⟩] = [] ∧
    runTicks (fun _ => true) 50 [⟨0, 0⟩] = [] ∧
    attemptsOf (fun _ => true) 0 4 [⟨0, 0⟩] = 4 ∧
    attemptsOf (fun _ => true) 0 50 [⟨0, 0⟩] = 4 ∧
    (processTick (fun _ => true) [⟨0, 3⟩]).dropped = [⟨0, 3⟩] ∧
    (processTick (fun _ => true) [⟨0, 3⟩]).queue = [] := by
  refine ⟨by decide, ?_, by decide, ?_, by decide, by decide⟩
  · show runTicks (fun _ => true) 46 (processTick (fun _ => true)
      (processTick (fun _ => true) (processTick (fun _ => true)
        (processTick (fun _ => true) [⟨0, 0⟩]).queue).queue).queue).queue = []
    have : (processTick (fun _ => true) (processTick (fun _ => true)
        (processTick (fun _ => true)
          (processTick (fun _ => true) [(⟨0, 0⟩ : QEvent)]).queue).queue).queue).queue = [] := by
      decide
    rw [this]
    exact runTicks_nil _ _
  · have h1 : (processTick (fun _ => true) [(⟨0, 0⟩ : QEvent)]).queue = [⟨0, 1⟩] := by decide
    have h2 : (processTick (fun _ => true) [(⟨0, 1⟩ : QEvent)]).queue = [⟨0, 2⟩] := by decide
    have h3 : (processTick (fun _ => true) [(⟨0, 2⟩ : QEvent)]).queue = [⟨0, 3⟩] := by decide
    have h4 : (processTick (fun _ => true) [(⟨0, 3⟩ : QEvent)]).queue = [] := by decide
    have e1 : ∀ n, attemptsOf (fun _ => true) 0 (n + 1) [(⟨0, 0⟩ : QEvent)]
        = 1 + attemptsOf (fun _ => true) 0 n [(⟨0, 1⟩ : QEvent)] := by
      intro n; simp [attemptsOf, h1]
    have e2 : ∀ n, attemptsOf (fun _ => true) 0 (n + 1) [(⟨0, 1⟩ : QEvent)]
        = 1 + attemptsOf (fun _ => true) 0 n [(⟨0, 2⟩ : QEvent)] := by
      intro n; simp [attemptsOf, h2]
    have e3 : ∀ n, attemptsOf (fun _ => true) 0 (n + 1) [(⟨0, 2⟩ : QEvent)]
        = 1 + attemptsOf (fun _ => true) 0 n [(⟨0, 3⟩ : QEvent)] := by
      intro n; simp [attemptsOf, h3]
    have e4 : ∀ n, attemptsOf (fun _ => true) 0 (n + 1) [(⟨0, 3⟩ : QEvent)]
        = 1 + attemptsOf (fun _ => true) 0 n [] := by
      intro n; simp [attemptsOf, h4]
    calc attemptsOf (fun _ => true) 0 50 [(⟨0, 0⟩ : QEvent)]
        = 1 + attemptsOf (fun _ => true) 0 49 [(⟨0, 1⟩ : QEvent)] := e1 49
      _ = 1 + (1 + attemptsOf (fun _ => true) 0 48 [(⟨0, 2⟩ : QEvent)]) := by rw [e2 48]
      _ = 1 + (1 + (1 + attemptsOf (fun _ => true) 0 47 [(⟨0, 3⟩ : QEvent)])) := by rw [e3 47]
      _ = 1 + (1 + (1 + (1 + attemptsOf (fun _ => true) 0 46 []))) := by rw [e4 46]
      _ = 4 := by rw [attemptsOf_nil]

/-- C1 amended.  For every event (any payload identity) whose
processing always fails, entering the queue with `retryCount = 0`: each
of the first three failures re-enqueues it with `retryCount`
incremented (exactly 3 retries, so 4 processing attempts in all); the
4th failure does not re-enqueue it (never a 4th retry) — but instead of
moving it to a dead-letter list the drain loop drops it, leaving no
trace in the system state. -/
theorem c1_retry_bound (i : Nat) :
    (processTick (fun _ => true) [⟨i, 0⟩]).queue = [⟨i, 1⟩] ∧
    (processTick (fun _ => true) [⟨i, 1⟩]).queue = [⟨i, 2⟩] ∧
    (processTick (fun _ => true) [⟨i, 2⟩]).queue = [⟨i, 3⟩] ∧
    (processTick (fun _ => true) [⟨i, 3⟩]).queue = [] ∧
    (processTick (fun _ => true) [⟨i, 3⟩]).dropped = [⟨i, 3⟩] ∧
    (∀ n, runTicks (fun _ => true) (n + 4) [⟨i, 0⟩] = []) := by
  have s0 := processTick_singleton_fail_lt (fun _ => true) ⟨i, 0⟩ rfl
    (by show (0 : Nat) < 3; decide)
  have s1 := processTick_singleton_fail_lt (fun _ => true) ⟨i, 1⟩ rfl
    (by show (1 : Nat) < 3; decide)
  have s2 := processTick_singleton_fail_lt (fun _ => true) ⟨i, 2⟩ rfl
    (by show (2 : Nat) < 3; decide)
  have s3 := processTick_singleton_fail_exhausted (fun _ => true) ⟨i, 3⟩ rfl
    (by show ¬ (3 : Nat) < 3; decide)
  refine ⟨s0, s1, s2, s3.1, s3.2, ?_⟩
  intro n
  show runTicks (fun _ => true) (n + 3) (processTick (fun _ => true) [⟨i, 0⟩]).queue = []
  rw [s0]
  show runTicks (fun _ => true) (n + 2) (processTick (fun _ => true) [⟨i, 1⟩]).queue = []
  rw [s1]
  show runTicks (fun _ => true) (n + 1) (processTick (fun _ => true) [⟨i, 2⟩]).queue = []
  rw [s2]
  show runTicks (fun _ => true) n (processTick (fun _ => true) [⟨i, 3⟩]).queue = []
  rw [s3.1]
  exact runTicks_nil _ _

/-- C8.  Within one event type the buffer is FIFO across enqueue and
retry: `addToProcessingQueue` appends at the tail; each tick drains the
up-to-10 oldest entries (those, in order, are the attempted batch, and
the successful ones are exactly the non-failing prefix entries in
order); a retried event is re-appended at the tail — the resulting
queue is the untouched remainder followed by the retried events in
batch order, so a persistently failing event never blocks the entries
behind it. -/
theorem c8_fifo_preserved (fails : QEvent → Bool) (q : List QEvent) (e : QEvent) :
    addToProcessingQueue q e = q ++ [e] ∧
    (processTick fails q).queue = q.drop 10 ++ (q.take 10).filterMap (retryOutcome fails) ∧
    (processTick fails q).processed = (q.take 10).filter (fun x => !fails x) ∧
    (processTick fails q).dropped =
      (q.take 10).filter (fun x => fails x && !(x.retryCount < 3)) := by
  refine ⟨rfl, processTick_queue fails q, ?_, ?_⟩
  · simp [processTick, handleBatch_processed]
  · simp [processTick, handleBatch_dropped]

/-! ## Store lemmas -/

lemma setKey_setKey [DecidableEq κ] (m : List (κ × α)) (k : κ) (v : α) :
    setKey (setKey m k v) k v = setKey m k v := by
  simp [setKey, List.filter_filter]

lemma getKey_setKey_same [DecidableEq κ] (m : List (κ × α)) (k : κ) (v : α) :
    getKey (setKey m k v) k = some v := by
  simp [getKey, setKey, List.find?]

lemma saveJob_saveJob (db : DB) (r : JobRecord) :
    saveJob (saveJob db r) r = saveJob db r := by
  simp [saveJob, setKey_setKey]

lemma saveBid_saveBid (db : DB) (r : BidRecord) :
    saveBid (saveBid db r) r = saveBid db r := by
  simp [saveBid, setKey_setKey]

lemma saveDispute_saveDispute (db : DB) (r : DisputeRecord) :
    saveDispute (saveDispute db r) r = saveDispute db r := by
  simp [saveDispute, setKey_setKey]

lemma updateMilestoneStatus_self (db : DB) (eid : String) (i : Nat) (r : MilestoneRecord)
    (h : setKey db.milestones (eid, i) r = db.milestones) :
    updateMilestoneStatus db eid i r = db := by
  simp [updateMilestoneStatus, h]

lemma statusMap_idem (l : List (String × JobRecord)) (j s : String) :
    (l.map (fun p => if p.1 = j then (p.1, { p.2 with status := s }) else p)).map
        (fun p => if p.1 = j then (p.1, { p.2 with status := s }) else p)
      = l.map (fun p => if p.1 = j then (p.1, { p.2 with status := s }) else p) := by
  induction l with
  | nil => rfl
  | cons p rest ih =>
    by_cases h : p.1 = j
    · simp [h, ih]
    · simp [h, ih]

lemma updateJobStatus_updateJobStatus (db : DB) (j s : String) :
    updateJobStatus (updateJobStatus db j s) j s = updateJobStatus db j s := by
  unfold updateJobStatus
  congr 1
  exact statusMap_idem db.jobs j s

lemma getEscrowById_saveDispute (db : DB) (r : DisputeRecord) (eid : String) :
    getEscrowById (saveDispute db r) eid = getEscrowById db eid := rfl

lemma getEscrowById_updateJobStatus (db : DB) (j s eid : String) :
    getEscrowById (updateJobStatus db j s) eid = getEscrowById db eid := rfl

lemma getEscrowById_updateMilestoneStatus (db : DB) (eid2 : String) (i : Nat)
    (r : MilestoneRecord) (eid : String) :
    getEscrowById (updateMilestoneStatus db eid2 i r) eid = getEscrowById db eid := rfl

lemma getJobById_saveBid (db : DB) (r : BidRecord) (j : String) :
    getJobById (saveBid db r) j = getJobById db j := rfl

lemma checkAllMilestonesCompleted_congr (db db' : DB) (eid : String)
    (h : db.milestones = db'.milestones) :
    checkAllMilestonesCompleted db eid = checkAllMilestonesCompleted db' eid := by
  simp [checkAllMilestonesCompleted, getMilestonesByEscrowId, h]

/-- The record transform of `updateJobStatus` preserves the contract
address, so lookups by contract address still find the row, with the
same `jobId` and `contractAddress`. -/
lemma getJobByContractAddress_updateJobStatus (db : DB) (j s a : String) (job : JobRecord)
    (h : getJobByContractAddress db a = some job) :
    ∃ job', getJobByContractAddress (updateJobStatus db j s) a = some job'
      ∧ job'.jobId = job.jobId ∧ job'.contractAddress = job.contractAddress := by
  unfold getJobByContractAddress at h ⊢
  obtain ⟨p, hp, hp2⟩ := Option.map_eq_some'.mp h
  have hcomp : (fun q : String × JobRecord => decide (q.2.contractAddress = a)) ∘
      (fun q : String × JobRecord => if q.1 = j then (q.1, { q.2 with status := s }) else q)
      = fun q : String × JobRecord => decide (q.2.contractAddress = a) := by
    funext q
    by_cases hq : q.1 = j <;> simp [hq]
  refine ⟨if p.1 = j then { p.2 with status := s } else p.2, ?_, ?_, ?_⟩
  · simp only [updateJobStatus, List.find?_map, hcomp]
    rw [hp]
    by_cases hq : p.1 = j <;> simp [hq]
  · by_cases hq : p.1 = j <;> simp [hq, hp2]
  · by_cases hq : p.1 = j <;> simp [hq, hp2]

lemma updateMilestoneStatus_updateMilestoneStatus (db : DB) (eid : String) (i : Nat)
    (r : MilestoneRecord) :
    updateMilestoneStatus (updateMilestoneStatus db eid i r) eid i r
      = updateMilestoneStatus db eid i r := by
  simp [updateMilestoneStatus, setKey_setKey]

lemma getJobByContractAddress_updateMilestoneStatus (db : DB) (eid : String) (i : Nat)
    (r : MilestoneRecord) (a : String) :
    getJobByContractAddress (updateMilestoneStatus db eid i r) a
      = getJobByContractAddress db a := rfl

lemma getJobByContractAddress_saveDispute (db : DB) (r : DisputeRecord) (a : String) :
    getJobByContractAddress (saveDispute db r) a = getJobByContractAddress db a := rfl

lemma updateMilestoneStatus_updateJobStatus_comm (db : DB) (j s : String) (eid : String)
    (i : Nat) (r : MilestoneRecord) :
    updateMilestoneStatus (updateJobStatus db j s) eid i r
      = updateJobStatus (updateMilestoneStatus db eid i r) j s := rfl

lemma saveDispute_updateJobStatus_comm (db : DB) (j s : String) (r : DisputeRecord) :
    saveDispute (updateJobStatus db j s) r = updateJobStatus (saveDispute db r) j s := rfl

lemma checkAllMilestonesCompleted_updateJobStatus (db : DB) (j s eid : String) :
    checkAllMilestonesCompleted (updateJobStatus db j s) eid
      = checkAllMilestonesCompleted db eid := rfl

lemma getUserLocationHash_saveDispute (db : DB) (r : DisputeRecord) (u : String) :
    getUserLocationHash (saveDispute db r) u = getUserLocationHash db u := rfl

lemma getUserLocationHash_updateJobStatus (db : DB) (j s u : String) :
    getUserLocationHash (updateJobStatus db j s) u = getUserLocationHash db u := rfl

/-! ## Replay (idempotence) lemmas for the four event processors -/

lemma processJobCreated_replay (env : Env) (db : DB) (ev : JobCreatedEvent)
    (h : (processJobCreatedEvent env db ev).success = true) :
    (processJobCreatedEvent env (processJobCreatedEvent env db ev).db ev).db
      = (processJobCreatedEvent env db ev).db ∧
    (processJobCreatedEvent env (processJobCreatedEvent env db ev).db ev).success = true := by
  cases hfd : env.fetchJobData ev.ipfsHash with
  | none => simp [processJobCreatedEvent, hfd] at h
  | some jd =>
    cases hti : getTokenInfo env ev.paymentToken with
    | none => simp [processJobCreatedEvent, hfd, hti] at h
    | some ti =>
      cases hc : env.setJobCacheOk with
      | false => simp [processJobCreatedEvent, hfd, hti, hc] at h
      | true =>
        cases hn : env.notifyJobCreatedOk with
        | false => simp [processJobCreatedEvent, hfd, hti, hc, hn] at h
        | true =>
          constructor
          · simp [processJobCreatedEvent, hfd, hti, hc, hn, saveJob_saveJob]
          · simp [processJobCreatedEvent, hfd, hti, hc, hn]

lemma processBidSubmitted_replay (env : Env) (db : DB) (ev : BidSubmittedEvent)
    (h : (processBidSubmittedEvent env db ev).success = true) :
    (processBidSubmittedEvent env (processBidSubmittedEvent env db ev).db ev).db
      = (processBidSubmittedEvent env db ev).db ∧
    (processBidSubmittedEvent env (processBidSubmittedEvent env db ev).db ev).success = true := by
  cases hbd : env.fetchBidData ev.proposalHash with
  | none => simp [processBidSubmittedEvent, hbd] at h
  | some bd =>
    cases hj : getJobById db ev.jobId with
    | none => simp [processBidSubmittedEvent, hbd, hj] at h
    | some job =>
      cases hn : env.notifyNewBidOk with
      | false => simp [processBidSubmittedEvent, hbd, hj, hn] at h
      | true =>
        cases hc : env.incrementJobBidCountOk with
        | false => simp [processBidSubmittedEvent, hbd, hj, hn, hc] at h
        | true =>
          constructor
          · simp [processBidSubmittedEvent, hbd, hj, hn, hc, getJobById_saveBid,
              saveBid_saveBid]
          · simp [processBidSubmittedEvent, hbd, hj, hn, hc, getJobById_saveBid]

lemma processMilestoneCompleted_replay (env : Env) (db : DB) (ev : MilestoneCompletedEvent)
    (h : (processMilestoneCompletedEvent env db ev).success = true) :
    (processMilestoneCompletedEvent env (processMilestoneCompletedEvent env db ev).db ev).db
      = (processMilestoneCompletedEvent env db ev).db ∧
    (processMilestoneCompletedEvent env (processMilestoneCompletedEvent env db ev).db ev).success
      = true := by
  cases hesc : getEscrowById db ev.escrowId with
  | none =>
    simp [processMilestoneCompletedEvent, getEscrowById_updateMilestoneStatus, hesc] at h
  | some escrow =>
    cases hjob : getJobByContractAddress db escrow.jobContract with
    | none =>
      simp [processMilestoneCompletedEvent, getEscrowById_updateMilestoneStatus,
        getJobByContractAddress_updateMilestoneStatus, hesc, hjob] at h
    | some job =>
      cases hn : env.notifyMilestoneCompletedOk with
      | false =>
        simp [processMilestoneCompletedEvent, getEscrowById_updateMilestoneStatus,
          getJobByContractAddress_updateMilestoneStatus, hesc, hjob, hn] at h
      | true =>
        cases hall : checkAllMilestonesCompleted
            (updateMilestoneStatus db ev.escrowId ev.milestoneIndex
              { status := "COMPLETED", completedAt := ev.timestamp * 1000, amount := ev.amount,
                recipient := ev.recipient, transactionHash := ev.transactionHash })
            ev.escrowId with
        | false =>
          constructor <;>
            simp [processMilestoneCompletedEvent, getEscrowById_updateMilestoneStatus,
              getJobByContractAddress_updateMilestoneStatus,
              updateMilestoneStatus_updateMilestoneStatus, hesc, hjob, hn, hall]
        | true =>
          cases hjc : env.notifyJobCompletedOk with
          | false =>
            simp [processMilestoneCompletedEvent, getEscrowById_updateMilestoneStatus,
              getJobByContractAddress_updateMilestoneStatus, hesc, hjob, hn, hall, hjc] at h
          | true =>
            obtain ⟨job', hjob', hjid, hjaddr⟩ :=
              getJobByContractAddress_updateJobStatus
                (updateMilestoneStatus db ev.escrowId ev.milestoneIndex
                  { status := "COMPLETED", completedAt := ev.timestamp * 1000,
                    amount := ev.amount, recipient := ev.recipient,
                    transactionHash := ev.transactionHash })
                job.jobId "COMPLETED" escrow.jobContract job
                (by rw [getJobByContractAddress_updateMilestoneStatus]; exact hjob)
            constructor <;>
              simp [processMilestoneCompletedEvent, getEscrowById_updateMilestoneStatus,
                getEscrowById_updateJobStatus, getJobByContractAddress_updateMilestoneStatus,
                updateMilestoneStatus_updateJobStatus_comm,
                updateMilestoneStatus_updateMilestoneStatus,
                checkAllMilestonesCompleted_updateJobStatus,
                updateJobStatus_updateJobStatus, hesc, hjob, hn, hall, hjc, hjob', hjid]

lemma processDisputeRaised_replay (env : Env) (db : DB) (ev : DisputeRaisedEvent)
    (h : (processDisputeRaisedEvent env db ev).success = true) :
    (processDisputeRaisedEvent env (processDisputeRaisedEvent env db ev).db ev).db
      = (processDisputeRaisedEvent env db ev).db ∧
    (processDisputeRaisedEvent env (processDisputeRaisedEvent env db ev).db ev).success
      = true := by
  cases hesc : getEscrowById db ev.escrowId with
  | none => simp [processDisputeRaisedEvent, hesc] at h
  | some escrow =>
    cases hjob : getJobByContractAddress db escrow.jobContract with
    | none => simp [processDisputeRaisedEvent, hesc, hjob] at h
    | some job =>
      cases hsig : env.hasSigner with
      | false =>
        simp [processDisputeRaisedEvent, requestArbitratorSelection, hesc, hjob, hsig] at h
      | true =>
        cases hsub : env.submitSelectionOk with
        | false =>
          simp [processDisputeRaisedEvent, requestArbitratorSelection, hesc, hjob, hsig,
            hsub] at h
        | true =>
          cases hn : env.notifyDisputeRaisedOk with
          | false =>
            simp [processDisputeRaisedEvent, requestArbitratorSelection, hesc, hjob, hsig,
              hsub, hn] at h
          | true =>
            obtain ⟨job', hjob', hjid, hjaddr⟩ :=
              getJobByContractAddress_updateJobStatus
                (saveDispute db
                  { disputeId := ev.disputeId, escrowId := ev.escrowId, jobId := job.jobId,
                    initiator := ev.initiator,
                    respondent :=
                      if ev.initiator = escrow.client then escrow.freelancer else escrow.client,
                    status := "PENDING", createdAt := ev.timestamp * 1000,
                    blockNumber := ev.blockNumber, transactionHash := ev.transactionHash })
                job.jobId "DISPUTED" escrow.jobContract job
                (by rw [getJobByContractAddress_saveDispute]; exact hjob)
            constructor <;>
              simp [processDisputeRaisedEvent, requestArbitratorSelection,
                getEscrowById_saveDispute, getEscrowById_updateJobStatus,
                getJobByContractAddress_saveDispute, saveDispute_updateJobStatus_comm,
                saveDispute_saveDispute, updateJobStatus_updateJobStatus,
                hesc, hjob, hsig, hsub, hn, hjob', hjid]

/-! ## Shuffle lemmas -/

lemma mem_swapPositions {α : Type} {x : α} (l : List α) (i j : Nat)
    (h : x ∈ swapPositions l i j) : x ∈ l := by
  unfold swapPositions at h
  cases hgi : l.get? i with
  | none => rw [hgi] at h; exact h
  | some a =>
    cases hgj : l.get? j with
    | none => rw [hgi, hgj] at h; exact h
    | some b =>
      rw [hgi, hgj] at h
      rcases List.mem_or_eq_of_mem_set h with h1 | h1
      · rcases List.mem_or_eq_of_mem_set h1 with h2 | h2
        · exact h2
        · rw [h2]; exact List.get?_mem hgj
      · rw [h1]; exact List.get?_mem hgi

lemma mem_shuffleGo {α : Type} {x : α} (seed n : Nat) (l : List α)
    (h : x ∈ shuffleGo seed n l) : x ∈ l := by
  induction n generalizing seed l with
  | zero => exact h
  | succ n ih =>
    exact mem_swapPositions _ _ _ (ih (seed / 2) (swapPositions l n (seed % (n + 1))) h)

lemma mem_shuffleArray {α : Type} {x : α} (l : List α) (seed : Nat)
    (h : x ∈ shuffleArray l seed) : x ∈ l :=
  mem_shuffleGo seed l.length l h

/-! ## JobFactory lemmas -/

lemma milestoneLoop_sum (t : Nat) (l : List (Nat × Nat)) (acc s : Nat)
    (h : milestoneLoop t l acc = .ok s) : s = acc + (l.map Prod.fst).sum := by
  induction l generalizing acc with
  | nil =>
    simp [milestoneLoop] at h
    simp [h]
  | cons p rest ih =>
    obtain ⟨a, d⟩ := p
    unfold milestoneLoop at h
    by_cases h1 : acc + a ≥ UINT256_MOD
    · rw [if_pos h1] at h; exact absurd h (by simp)
    · rw [if_neg h1] at h
      by_cases h2 : d ≤ t
      · rw [if_pos h2] at h; exact absurd h (by simp)
      · rw [if_neg h2] at h
        have := ih (acc + a) h
        simp [this]
        ring

lemma validateJobCreation_ok (t ihl tb : Nat) (ma md : List Nat)
    (h : validateJobCreation t ihl tb ma md = .ok ()) :
    ma.sum = tb := by
  unfold validateJobCreation at h
  by_cases c1 : ihl = 0
  · rw [if_pos c1] at h; exact absurd h (by simp)
  · rw [if_neg c1] at h
    by_cases c2 : tb < MIN_JOB_BUDGET ∨ tb > MAX_JOB_BUDGET
    · rw [if_pos c2] at h; exact absurd h (by simp)
    · rw [if_neg c2] at h
      by_cases c3 : ma.length = 0 ∨ ma.length > MAX_MILESTONES
      · rw [if_pos c3] at h; exact absurd h (by simp)
      · rw [if_neg c3] at h
        by_cases c4 : ma.length ≠ md.length
        · rw [if_pos c4] at h; exact absurd h (by simp)
        · rw [if_neg c4] at h
          cases hl : milestoneLoop t (ma.zip md) 0 with
          | error e => rw [hl] at h; exact absurd h (by simp)
          | ok s =>
            rw [hl] at h
            have h2 : (if s ≠ tb then
                  (Except.error (JFError.milestoneMismatch tb s) : Except JFError Unit)
                else Except.ok ()) = Except.ok () := h
            by_cases c5 : s ≠ tb
            · rw [if_pos c5] at h2; exact absurd h2 (by simp)
            · have hsum := milestoneLoop_sum t (ma.zip md) 0 s hl
              have hlen : ma.length ≤ md.length := le_of_eq (not_not.mp c4)
              rw [List.map_fst_zip ma md hlen] at hsum
              omega

/-! ## Claim theorems: reconciler -/

/-- C2.  Reconciliation is idempotent on entity state for every event
type: if processing an event succeeded, processing the very same event
(same transactionHash payload) again leaves the durable store exactly
as after the first application, and the replay is a success (not an
error). -/
theorem c2_idempotent_replay (env : Env) (db : DB) (ev : EventData)
    (h : (processEvent env db ev).success = true) :
    (processEvent env (processEvent env db ev).db ev).db = (processEvent env db ev).db ∧
    (processEvent env (processEvent env db ev).db ev).success = true := by
  cases ev with
  | jobCreated e => exact processJobCreated_replay env db e h
  | bidSubmitted e => exact processBidSubmitted_replay env db e h
  | milestoneCompleted e => exact processMilestoneCompleted_replay env db e h
  | disputeRaised e => exact processDisputeRaised_replay env db e h

/-- Witness for C2 at a concrete JobCreated event. -/
theorem c2_idempotent_replay_witness :
    (processEvent envAllOk
        (processEvent envAllOk dbSample (.jobCreated evJobSample)).db
        (.jobCreated evJobSample)).db
      = (processEvent envAllOk dbSample (.jobCreated evJobSample)).db ∧
    (processEvent envAllOk
        (processEvent envAllOk dbSample (.jobCreated evJobSample)).db
        (.jobCreated evJobSample)).success = true :=
  c2_idempotent_replay envAllOk dbSample (.jobCreated evJobSample) (by decide)

/-- C9.  Every successfully processed JobCreated event persists the job
with status OPEN, `createdAt` equal to the block timestamp in
milliseconds, and `biddingDeadline` exactly 7 days after it. -/
theorem c9_job_created_open_seven_days (env : Env) (db : DB) (ev : JobCreatedEvent)
    (h : (processJobCreatedEvent env db ev).success = true) :
    ∃ r : JobRecord,
      getJobById (processJobCreatedEvent env db ev).db ev.jobId = some r ∧
      r.status = "OPEN" ∧ r.createdAt = ev.timestamp * 1000 ∧
      r.biddingDeadline = ev.timestamp * 1000 + 7 * 24 * 60 * 60 * 1000 := by
  cases hfd : env.fetchJobData ev.ipfsHash with
  | none => simp [processJobCreatedEvent, hfd] at h
  | some jd =>
    cases hti : getTokenInfo env ev.paymentToken with
    | none => simp [processJobCreatedEvent, hfd, hti] at h
    | some ti =>
      cases hc : env.setJobCacheOk with
      | false => simp [processJobCreatedEvent, hfd, hti, hc] at h
      | true =>
        cases hn : env.notifyJobCreatedOk with
        | false => simp [processJobCreatedEvent, hfd, hti, hc, hn] at h
        | true =>
          refine ⟨{ jobId := ev.jobId
                    contractAddress := ev.jobContract
                    clientAddress := ev.client
                    title := jd.title
                    description := jd.description
                    requirements := jd.requirements
                    budget := ev.totalBudget
                    budgetUSD := convertToUSD ev.paymentToken ev.totalBudget
                    paymentToken := ev.paymentToken
                    currency := ti.symbol
                    skills := jd.skills
                    milestones := jd.milestones
                    ipfsHash := ev.ipfsHash
                    status := "OPEN"
                    createdAt := ev.timestamp * 1000
                    biddingDeadline := ev.timestamp * 1000 + sevenDaysMs
                    blockNumber := ev.blockNumber
                    transactionHash := ev.transactionHash }, ?_, rfl, rfl, rfl⟩
          simp [processJobCreatedEvent, hfd, hti, hc, hn, getJobById, saveJob,
            getKey_setKey_same]

/-- Witness for C9 at a concrete JobCreated event. -/
theorem c9_job_created_open_seven_days_witness :
    ∃ r : JobRecord,
      getJobById (processJobCreatedEvent envAllOk dbSample evJobSample).db
          evJobSample.jobId = some r ∧
      r.status = "OPEN" ∧ r.createdAt = evJobSample.timestamp * 1000 ∧
      r.biddingDeadline = evJobSample.timestamp * 1000 + 7 * 24 * 60 * 60 * 1000 :=
  c9_job_created_open_seven_days envAllOk dbSample evJobSample (by decide)

/-- C10.  Every successfully processed DisputeRaised event persists the
dispute with the respondent derived as the escrow counterparty of the
initiator (the escrow's freelancer when the initiator is the escrow's
client, the escrow's client otherwise), status PENDING, and sets the
owning job's status to DISPUTED. -/
theorem c10_dispute_respondent_and_status (env : Env) (db : DB) (ev : DisputeRaisedEvent)
    (escrow : EscrowRecord) (job : JobRecord)
    (hwf : ∀ p ∈ db.jobs, p.1 = p.2.jobId)
    (hesc : getEscrowById db ev.escrowId = some escrow)
    (hjob : getJobByContractAddress db escrow.jobContract = some job)
    (h : (processDisputeRaisedEvent env db ev).success = true) :
    getKey (processDisputeRaisedEvent env db ev).db.disputes ev.disputeId
      = some { disputeId := ev.disputeId, escrowId := ev.escrowId, jobId := job.jobId,
               initiator := ev.initiator,
               respondent := if ev.initiator = escrow.client then escrow.freelancer
                             else escrow.client,
               status := "PENDING", createdAt := ev.timestamp * 1000,
               blockNumber := ev.blockNumber, transactionHash := ev.transactionHash } ∧
    ∃ p ∈ (processDisputeRaisedEvent env db ev).db.jobs,
      p.1 = job.jobId ∧ p.2.status = "DISPUTED" := by
  cases hsig : env.hasSigner with
  | false =>
    simp [processDisputeRaisedEvent, requestArbitratorSelection, hesc, hjob, hsig] at h
  | true =>
    cases hsub : env.submitSelectionOk with
    | false =>
      simp [processDisputeRaisedEvent, requestArbitratorSelection, hesc, hjob, hsig, hsub] at h
    | true =>
      cases hn : env.notifyDisputeRaisedOk with
      | false =>
        simp [processDisputeRaisedEvent, requestArbitratorSelection, hesc, hjob, hsig,
          hsub, hn] at h
      | true =>
        have hfinal : (processDisputeRaisedEvent env db ev).db
            = updateJobStatus (saveDispute db
                { disputeId := ev.disputeId, escrowId := ev.escrowId, jobId := job.jobId,
                  initiator := ev.initiator,
                  respondent := if ev.initiator = escrow.client then escrow.freelancer
                                else escrow.client,
                  status := "PENDING", createdAt := ev.timestamp * 1000,
                  blockNumber := ev.blockNumber, transactionHash := ev.transactionHash })
                job.jobId "DISPUTED" := by
          simp [processDisputeRaisedEvent, requestArbitratorSelection, hesc, hjob, hsig,
            hsub, hn]
        constructor
        · rw [hfinal]
          exact getKey_setKey_same _ _ _
        · simp only [getJobByContractAddress] at hjob
          obtain ⟨q, hq, hq2⟩ := Option.map_eq_some'.mp hjob
          have hqmem : q ∈ db.jobs := List.mem_of_find?_eq_some hq
          have hkey : q.1 = job.jobId := by rw [hwf q hqmem, hq2]
          refine ⟨(q.1, { q.2 with status := "DISPUTED" }), ?_, hkey, rfl⟩
          rw [hfinal]
          have himg : (q.1, { q.2 with status := "DISPUTED" })
              = (fun p : String × JobRecord =>
                  if p.1 = job.jobId then (p.1, { p.2 with status := "DISPUTED" }) else p) q := by
            simp [hkey]
          rw [himg]
          exact List.mem_map_of_mem _ hqmem

/-- Witness for C10 at a concrete DisputeRaised event. -/
theorem c10_dispute_respondent_and_status_witness :
    getKey (processDisputeRaisedEvent envAllOk dbSample evDisputeSample).db.disputes
        evDisputeSample.disputeId
      = some { disputeId := evDisputeSample.disputeId, escrowId := evDisputeSample.escrowId,
               jobId := jobSample.jobId, initiator := evDisputeSample.initiator,
               respondent := if evDisputeSample.initiator = escrowSample.client
                             then escrowSample.freelancer else escrowSample.client,
               status := "PENDING", createdAt := evDisputeSample.timestamp * 1000,
               blockNumber := evDisputeSample.blockNumber,
               transactionHash := evDisputeSample.transactionHash } ∧
    ∃ p ∈ (processDisputeRaisedEvent envAllOk dbSample evDisputeSample).db.jobs,
      p.1 = jobSample.jobId ∧ p.2.status = "DISPUTED" :=
  c10_dispute_respondent_and_status envAllOk dbSample evDisputeSample escrowSample jobSample
    (by decide) (by decide) (by decide) (by decide)

/-- C4 counterexample.  With the milestone-completed notification
failing, processing a MilestoneCompleted event writes the milestone
record (COMPLETED) and then throws: the event fails (so it will be
retried whole), yet the store was already mutated — it is neither the
pre-event state nor the fully applied state, and the owning job whose
only milestone is now COMPLETED still carries its old IN_PROGRESS
status, while the all-side-effects-succeed run would have marked it
COMPLETED.  The entity state update and its side effects are therefore
not committed as one unit. -/
theorem c4_counterexample :
    ((processMilestoneCompletedEvent envNotifyMilestoneFail dbSample evMilestoneSample).success
      = false) ∧
    (processMilestoneCompletedEvent envNotifyMilestoneFail dbSample evMilestoneSample).db
      ≠ dbSample ∧
    (processMilestoneCompletedEvent envNotifyMilestoneFail dbSample evMilestoneSample).db
      ≠ (processMilestoneCompletedEvent envAllOk dbSample evMilestoneSample).db ∧
    getKey (processMilestoneCompletedEvent envNotifyMilestoneFail dbSample
        evMilestoneSample).db.milestones ("esc1", 0)
      = some { status := "COMPLETED", completedAt := 1000000, amount := "600",
               recipient := "fr", transactionHash := "tx1" } ∧
    (∃ p ∈ (processMilestoneCompletedEvent envNotifyMilestoneFail dbSample
        evMilestoneSample).db.jobs, p.1 = "j1" ∧ p.2.status = "IN_PROGRESS") ∧
    (∃ p ∈ (processMilestoneCompletedEvent envAllOk dbSample evMilestoneSample).db.jobs,
        p.1 = "j1" ∧ p.2.status = "COMPLETED") := by
  refine ⟨by decide, by decide, by decide, by decide, by decide, by decide⟩

/-- C4 amended.  On a side-effect failure the reconciler does retry the
whole event (per the queue), but entity writes already performed are
kept, not rolled back: whenever the milestone-completed notification
fails, the handler aborts with the milestone already written as
COMPLETED and any later write (the job-status COMPLETED update) never
performed, leaving the store in a partially applied transitional state
until a retry succeeds — or permanently, once the 3-retry budget is
exhausted. -/
theorem c4_partial_write_retained (env : Env) (db : DB) (ev : MilestoneCompletedEvent)
    (hn : env.notifyMilestoneCompletedOk = false) :
    (processMilestoneCompletedEvent env db ev).success = false ∧
    (processMilestoneCompletedEvent env db ev).db
      = updateMilestoneStatus db ev.escrowId ev.milestoneIndex
          { status := "COMPLETED", completedAt := ev.timestamp * 1000, amount := ev.amount,
            recipient := ev.recipient, transactionHash := ev.transactionHash } := by
  cases hesc : getEscrowById db ev.escrowId with
  | none =>
    constructor <;>
      simp [processMilestoneCompletedEvent, getEscrowById_updateMilestoneStatus, hesc]
  | some escrow =>
    cases hjob : getJobByContractAddress db escrow.jobContract with
    | none =>
      constructor <;>
        simp [processMilestoneCompletedEvent, getEscrowById_updateMilestoneStatus,
          getJobByContractAddress_updateMilestoneStatus, hesc, hjob]
    | some job =>
      constructor <;>
        simp [processMilestoneCompletedEvent, getEscrowById_updateMilestoneStatus,
          getJobByContractAddress_updateMilestoneStatus, hesc, hjob, hn]

/-- Witness for the amended C4 at a concrete event. -/
theorem c4_partial_write_retained_witness :
    (processMilestoneCompletedEvent envNotifyMilestoneFail dbSample evMilestoneSample).success
      = false ∧
    (processMilestoneCompletedEvent envNotifyMilestoneFail dbSample evMilestoneSample).db
      = updateMilestoneStatus dbSample evMilestoneSample.escrowId
          evMilestoneSample.milestoneIndex
          { status := "COMPLETED", completedAt := evMilestoneSample.timestamp * 1000,
            amount := evMilestoneSample.amount, recipient := evMilestoneSample.recipient,
            transactionHash := evMilestoneSample.transactionHash } :=
  c4_partial_write_retained envNotifyMilestoneFail dbSample evMilestoneSample rfl

/-! ## Claim theorems: arbitrator selection -/

/-- C3 counterexample.  The backend selection takes a single
`excludeRegion`: in a dispute with client region EU and freelancer
region US, excluding the client's region still selects an arbitrator
whose region equals the freelancer's region ("US"), violating the
both-parties geographic exclusion.  Moreover there is no widening
ladder: a pool whose only (active, out-of-region) arbitrator exceeds
the load cap yields an empty selection instead of dropping the load
cap. -/
theorem c3_counterexample :
    selectArbitrators
        [{ walletAddress := "arb1", region := "US", isActive := true, currentDisputes := 0 }]
        "EU" 7 = ["arb1"] ∧
    ("US" : String) ≠ "EU" ∧
    selectArbitrators
        [{ walletAddress := "arb2", region := "AS", isActive := true, currentDisputes := 5 }]
        "EU" 7 = [] := by
  refine ⟨by decide, by decide, by decide⟩

/-- C3 amended.  Every selected arbitrator comes from the pool, is
active, has fewer than 3 current disputes, and — the only geographic
guarantee the code gives — has a region different from the single
caller-supplied `excludeRegion`; the other party's region is not
excluded, there is no expertise filter, and an empty filtered pool
yields an empty selection (no widening ever happens). -/
theorem c3_single_region_exclusion (pool : List Arbitrator) (excludeRegion : String)
    (seed : Nat) (addr : String)
    (h : addr ∈ selectArbitrators pool excludeRegion seed) :
    ∃ a ∈ pool, a.walletAddress = addr ∧ a.isActive = true ∧
      a.region ≠ excludeRegion ∧ a.currentDisputes < 3 := by
  simp only [selectArbitrators] at h
  obtain ⟨a, ha, rfl⟩ := List.mem_map.mp h
  have ha2 := List.mem_of_mem_take ha
  have ha3 := mem_shuffleArray _ _ ha2
  have := List.mem_filter.mp ha3
  obtain ⟨hmem, hcond⟩ := this
  simp only [Bool.and_eq_true, decide_eq_true_eq] at hcond
  exact ⟨a, hmem, rfl, hcond.1.1, hcond.1.2, hcond.2⟩

/-- Witness for the amended C3 at a concrete pool. -/
theorem c3_single_region_exclusion_witness :
    ∃ a ∈ arbPoolSample,
      a.walletAddress = "a1" ∧ a.isActive = true ∧ a.region ≠ "EU" ∧ a.currentDisputes < 3 :=
  c3_single_region_exclusion arbPoolSample "EU" 0 "a1" (by decide)

/-! ## Claim theorems: contracts -/

/-- C5.  `createJob` creates a job only when the milestone amounts sum
exactly to the total budget: any successful call yields a created job
whose recorded `milestoneAmounts` are the submitted ones, whose
recorded `totalBudget` is the submitted one, and whose amounts sum to
that budget — so a call with a mismatched sum can never create a job
(it reverts, in `_validateJobCreation`, with `MilestoneMismatch` when
the earlier checks pass). -/
theorem c5_milestone_sum_enforced (st : FactoryState) (sender : String)
    (msgValue timestamp ipfsHashLen totalBudget : Nat) (paymentToken ipfsHash : String)
    (milestoneAmounts milestoneDeadlines : List Nat) (st2 : FactoryState)
    (created : CreatedJob)
    (h : createJob st sender msgValue timestamp ipfsHashLen totalBudget paymentToken
        ipfsHash milestoneAmounts milestoneDeadlines = .ok (st2, created)) :
    created.milestoneAmounts.sum = created.totalBudget ∧
    created.milestoneAmounts = milestoneAmounts ∧
    created.totalBudget = totalBudget := by
  unfold createJob at h
  by_cases c1 : ¬ (sender ∈ st.authorizedClients ∨ sender = st.ownerAddr)
  · rw [if_pos c1] at h; exact absurd h (by simp)
  · rw [if_neg c1] at h
    by_cases c2 : st.paused
    · rw [if_pos c2] at h; exact absurd h (by simp)
    · rw [if_neg c2] at h
      cases hv : validateJobCreation timestamp ipfsHashLen totalBudget
          milestoneAmounts milestoneDeadlines with
      | error e => rw [hv] at h; exact absurd h (by simp)
      | ok u =>
        cases u
        rw [hv] at h
        have hsum := validateJobCreation_ok timestamp ipfsHashLen totalBudget
          milestoneAmounts milestoneDeadlines hv
        have h2 : (if msgValue < JOB_CREATION_FEE then
              (Except.error (JFError.insufficientFee msgValue JOB_CREATION_FEE) :
                Except JFError (FactoryState × CreatedJob))
            else if (getKey st.clientJobCount sender).getD 0 ≥ MAX_JOBS_PER_CLIENT then
              .error (.tooManyJobs ((getKey st.clientJobCount sender).getD 0)
                MAX_JOBS_PER_CLIENT)
            else
              .ok ({ st with
                      jobCounter := st.jobCounter + 1
                      jobs := setKey st.jobs (st.jobCounter + 1)
                        ("clone-" ++ toString (st.jobCounter + 1))
                      clientJobCount := setKey st.clientJobCount sender
                        ((getKey st.clientJobCount sender).getD 0 + 1) },
                    { jobId := st.jobCounter + 1
                      client := sender
                      ipfsHash := ipfsHash
                      totalBudget := totalBudget
                      paymentToken := paymentToken
                      milestoneAmounts := milestoneAmounts
                      milestoneDeadlines := milestoneDeadlines })) = .ok (st2, created) := h
        by_cases c3 : msgValue < JOB_CREATION_FEE
        · rw [if_pos c3] at h2; exact absurd h2 (by simp)
        · rw [if_neg c3] at h2
          by_cases c4 : (getKey st.clientJobCount sender).getD 0 ≥ MAX_JOBS_PER_CLIENT
          · rw [if_pos c4] at h2; exact absurd h2 (by simp)
          · rw [if_neg c4] at h2
            simp only [Except.ok.injEq, Prod.mk.injEq] at h2
            obtain ⟨-, hcr⟩ := h2
            rw [← hcr]
            exact ⟨hsum, rfl, rfl⟩

/-- Witness for C5 at a concrete successful creation. -/
theorem c5_milestone_sum_enforced_witness :
    createdJobSample.milestoneAmounts.sum = createdJobSample.totalBudget ∧
    createdJobSample.milestoneAmounts = [10 ^ 16] ∧
    createdJobSample.totalBudget = 10 ^ 16 :=
  c5_milestone_sum_enforced factorySample "alice" (10 ^ 16) 100 5 (10 ^ 16) "tok" "Qm"
    [10 ^ 16] [101] factoryAfterSample createdJobSample (by rfl)

/-- C7.  When `releaseWithYield` is invoked by the escrow's client and
the vault redemption returns at least the principal, the call succeeds
and transfers exactly the principal plus 80% of the accrued yield to
the freelancer and 20% of the accrued yield back to the client
(integer division by 100, as in the contract), and the two payouts
never exceed the redeemed total. -/
theorem c7_yield_split (redeem : Nat → Nat) (e : YEscrow) (sender : String)
    (hs : sender = e.client) (hy : e.amount ≤ redeem e.shares) :
    releaseWithYield redeem sender e
      = .ok (e.amount + (redeem e.shares - e.amount) * 80 / 100,
             (redeem e.shares - e.amount) * 20 / 100) ∧
    e.amount + (redeem e.shares - e.amount) * 80 / 100
      + (redeem e.shares - e.amount) * 20 / 100 ≤ redeem e.shares := by
  constructor
  · subst hs
    simp [releaseWithYield, Nat.not_lt.mpr hy]
  · have h1 : ((redeem e.shares - e.amount) * 80 / 100) * 100
        ≤ (redeem e.shares - e.amount) * 80 := Nat.div_mul_le_self _ _
    have h2 : ((redeem e.shares - e.amount) * 20 / 100) * 100
        ≤ (redeem e.shares - e.amount) * 20 := Nat.div_mul_le_self _ _
    have h3 : ((redeem e.shares - e.amount) * 80 / 100
          + (redeem e.shares - e.amount) * 20 / 100) * 100
        ≤ (redeem e.shares - e.amount) * 100 := by
      rw [Nat.add_mul]
      omega
    have h4 : (redeem e.shares - e.amount) * 80 / 100
          + (redeem e.shares - e.amount) * 20 / 100
        ≤ redeem e.shares - e.amount :=
      Nat.le_of_mul_le_mul_right h3 (by norm_num)
    omega

/-- Witness for C7: principal 1000, redemption 1100 (yield 100), so the
freelancer gets 1080 and the client 20. -/
theorem c7_yield_split_witness :
    releaseWithYield (fun _ => 1100) "cl" yEscrowSample
      = .ok (yEscrowSample.amount
          + ((fun _ : Nat => 1100) yEscrowSample.shares - yEscrowSample.amount) * 80 / 100,
        ((fun _ : Nat => 1100) yEscrowSample.shares - yEscrowSample.amount) * 20 / 100) ∧
    yEscrowSample.amount
        + ((fun _ : Nat => 1100) yEscrowSample.shares - yEscrowSample.amount) * 80 / 100
        + ((fun _ : Nat => 1100) yEscrowSample.shares - yEscrowSample.amount) * 20 / 100
      ≤ (fun _ : Nat => 1100) yEscrowSample.shares :=
  c7_yield_split (fun _ => 1100) yEscrowSample "cl" rfl (by decide)

/-- C6 counterexample.  A failed `selectArbitratorForDispute`
submission inside `processDisputeRaisedEvent` makes the whole event
fail, and `startEventProcessing` then re-enqueues and re-processes the
event automatically: after 2 ticks the submission has been attempted
twice from one external invocation, and over a long run it is attempted
4 times in total — the system does retry the financial submission
automatically, contradicting the claim that such failures are only
surfaced for explicit re-invocation. -/
theorem c6_counterexample :
    (processDisputeRaisedEvent envSubmitFail dbSample evDisputeSample).success = false ∧
    (processDisputeRaisedEvent envSubmitFail dbSample evDisputeSample).effects = [] ∧
    attemptsOf (fun _ =>
        !(processDisputeRaisedEvent envSubmitFail dbSample evDisputeSample).success)
      0 2 [⟨0, 0⟩] = 2 ∧
    attemptsOf (fun _ =>
        !(processDisputeRaisedEvent envSubmitFail dbSample evDisputeSample).success)
      0 10 [⟨0, 0⟩] = 4 := by
  refine ⟨by decide, by decide, by decide, by decide⟩

/-- C6 amended.  A failed escrow/dispute transaction submission inside
event processing is not surfaced for explicit re-invocation: the
handler fails after having already persisted the dispute and the job
status, and the drain loop automatically re-enqueues the event (tail of
the queue, retryCount incremented), re-attempting the submission on the
next tick — up to 3 automatic retries.  Only the direct public
submission methods (createJob, submitBid, acceptBid) return the failure
to their caller without retry. -/
theorem c6_submission_failure_auto_retried (env : Env) (db : DB) (ev : DisputeRaisedEvent)
    (escrow : EscrowRecord) (job : JobRecord)
    (hesc : getEscrowById db ev.escrowId = some escrow)
    (hjob : getJobByContractAddress db escrow.jobContract = some job)
    (hsig : env.hasSigner = true) (hsub : env.submitSelectionOk = false)
    (i r : Nat) (hr : r < 3) :
    (processDisputeRaisedEvent env db ev).success = false ∧
    (processDisputeRaisedEvent env db ev).db
      = updateJobStatus (saveDispute db
          { disputeId := ev.disputeId, escrowId := ev.escrowId, jobId := job.jobId,
            initiator := ev.initiator,
            respondent := if ev.initiator = escrow.client then escrow.freelancer
                          else escrow.client,
            status := "PENDING", createdAt := ev.timestamp * 1000,
            blockNumber := ev.blockNumber, transactionHash := ev.transactionHash })
          job.jobId "DISPUTED" ∧
    (processTick (fun _ => !(processDisputeRaisedEvent env db ev).success)
        [⟨i, r⟩]).queue = [⟨i, r + 1⟩] := by
  have h1 : (processDisputeRaisedEvent env db ev).success = false := by
    simp [processDisputeRaisedEvent, requestArbitratorSelection, hesc, hjob, hsig, hsub]
  refine ⟨h1, ?_, ?_⟩
  · simp [processDisputeRaisedEvent, requestArbitratorSelection, hesc, hjob, hsig, hsub]
  · exact processTick_singleton_fail_lt _ _ (by simp [h1]) hr

/-- Witness for the amended C6 at a concrete dispute event. -/
theorem c6_submission_failure_auto_retried_witness :
    (processDisputeRaisedEvent envSubmitFail dbSample evDisputeSample).success = false ∧
    (processDisputeRaisedEvent envSubmitFail dbSample evDisputeSample).db
      = updateJobStatus (saveDispute dbSample
          { disputeId := evDisputeSample.disputeId, escrowId := evDisputeSample.escrowId,
            jobId := jobSample.jobId, initiator := evDisputeSample.initiator,
            respondent := if evDisputeSample.initiator = escrowSample.client
                          then escrowSample.freelancer else escrowSample.client,
            status := "PENDING", createdAt := evDisputeSample.timestamp * 1000,
            blockNumber := evDisputeSample.blockNumber,
            transactionHash := evDisputeSample.transactionHash })
          jobSample.jobId "DISPUTED" ∧
    (processTick (fun _ =>
        !(processDisputeRaisedEvent envSubmitFail dbSample evDisputeSample).success)
      [⟨0, 0⟩]).queue = [⟨0, 0 + 1⟩] :=
  c6_submission_failure_auto_retried envSubmitFail dbSample evDisputeSample escrowSample
    jobSample (by decide) (by decide) rfl rfl 0 0 (by decide)

end Spec2Proof

